import Mathlib

/-!
Verification of the stateful primitives of the esi-bot-v2 repository
(src/internal/server/slack.go and src/slack/status.go).

The embedding models:
* the `patrickmn/go-cache` store used for both the CSRF state map
  (`stateMap = cache.New(5m, 5m)`) and the ESI status cache
  (`statusCache = cache.New(1m, 30s)`) as an association list of
  entries carrying an absolute expiration instant (UnixNano, 0 = no expiry),
  with an explicit `now : Int` clock passed to each operation;
* the HTTP handlers of slack.go as pure functions from their decoded
  inputs (request body, context token, external-collaborator results)
  to their observable effects (status codes written, bodies encoded,
  chat messages posted, cache state after the call);
* the status-message pipeline of status.go (`makeESIStatusMessage`,
  `fetchRouteStatuses`, `checkCache`, `percentage`,
  `generateRoutesString`, `determineServerRunTime`), with the upstream
  HTTP fetch abstracted as a caller-supplied function, float64
  arithmetic modelled over `ℚ`, and Go's `time` clock in nanoseconds.
-/

namespace EsiBot

/-- One entry of a `patrickmn/go-cache` store: the stored object plus its
absolute expiration instant in nanoseconds; `0` means no automatic expiry. -/
structure CacheItem (α : Type) where
  object : α
  expiration : Int
deriving Repr, DecidableEq

/-- A `patrickmn/go-cache` cache: the default expiration used when an item is
set with duration `0` (`cache.DefaultExpiration`), and the keyed items. -/
structure Cache (α : Type) where
  defaultExpiration : Int
  items : List (String × CacheItem α)
deriving Repr, DecidableEq

/-- `Cache.Get`: an item is returned only if present and not logically
expired (`item.Expiration > 0 && now > item.Expiration` means expired),
independently of whether the background sweep has purged it. -/
def Cache.get {α : Type} (c : Cache α) (k : String) (now : Int) : Option α :=
  match c.items.find? (fun p => p.1 == k) with
  | none => none
  | some p =>
      if p.2.expiration > 0 && now > p.2.expiration then none else some p.2.object

/-- `Cache.Set`: duration `0` (`cache.DefaultExpiration`) selects the cache's
default expiration; a positive duration becomes the absolute instant
`now + d`; otherwise the item never expires (`expiration = 0`). The map
update is modelled by removing any previous binding of the key. -/
def Cache.set {α : Type} (c : Cache α) (k : String) (v : α) (d : Int) (now : Int) : Cache α :=
  let d1 := if d = 0 then c.defaultExpiration else d
  let e := if d1 > 0 then now + d1 else 0
  { c with items := (k, ⟨v, e⟩) :: c.items.filter (fun p => p.1 != k) }

/-- `Cache.Delete`: removes the key immediately; idempotent. -/
def Cache.delete {α : Type} (c : Cache α) (k : String) : Cache α :=
  { c with items := c.items.filter (fun p => p.1 != k) }

/-- `Cache.Flush`: drops every item of the cache. -/
def Cache.flush {α : Type} (c : Cache α) : Cache α :=
  { c with items := [] }

/-- `stateMap = cache.New(time.Minute*5, time.Minute*5)` (slack.go line 71):
empty store whose default expiration is five minutes in nanoseconds. -/
def stateMapInit : Cache Bool :=
  { defaultExpiration := 5 * 60 * 1000000000, items := [] }

/-- The decoded body of the invite-callback request (slack.go `SlackInvite`). -/
structure SlackInvite where
  state : String
  code : String
deriving Repr, DecidableEq

/-- `SlackInvite.IsValid` (slack.go lines 85-87). -/
def SlackInvite.IsValid (s : SlackInvite) : Bool :=
  s.state != "" && s.code != ""

/-- `handleGetSlackInvite` state issuance (slack.go lines 93-94):
`tools.RandomString(16)` is an external entropy source, so the generated
state is a parameter; the handler stores `true` under it with duration `0`
(hence the map's five-minute default expiration). -/
def issueState (state : String) (m : Cache Bool) (now : Int) : Cache Bool :=
  Cache.set m state true 0 now

/-- The state-redemption step of `handlePostSlackInvite`
(slack.go lines 133-139): look the token up; if absent (never issued,
already redeemed, or expired) report failure and leave the map unchanged;
if present, delete it and report success. -/
def redeem (token : String) (m : Cache Bool) (now : Int) : Bool × Cache Bool :=
  match Cache.get m token now with
  | none => (false, m)
  | some _ => (true, Cache.delete m token)

/-- A sequence of `redeem` calls for the same token at the given instants,
threading the state map; returns the number of successful redemptions and
the final map. -/
def redeemRun (token : String) (m : Cache Bool) : List Int → Nat × Cache Bool
  | [] => (0, m)
  | now :: rest =>
      let r := redeem token m now
      let s := redeemRun token r.2 rest
      ((if r.1 then 1 else 0) + s.1, s.2)

/-- One route-status record fetched from the upstream status API
(`eb2.ESIStatus`): HTTP method, route path, and a status string
(green, yellow or red). -/
structure ESIStatus where
  method : String
  route : String
  status : String
deriving Repr, DecidableEq

/-- A severity bucket definition (status.go `StatusCategory`). -/
structure StatusCategory where
  status : String
  emoji : String
  color : String
deriving Repr, DecidableEq

/-- The fixed category list of status.go lines 24-35 (red then yellow). -/
def categories : List StatusCategory :=
  [ { status := "red", emoji := ":fire:", color := "danger" },
    { status := "yellow", emoji := ":fire_engine:", color := "warning" } ]

/-- `statusCache = cache.New(time.Minute*1, time.Second*30)` (status.go
line 37): empty store with a one-minute default expiration in nanoseconds. -/
def statusCacheInit : Cache (List ESIStatus) :=
  { defaultExpiration := 60 * 1000000000, items := [] }

/-- The three failure points of `fetchRouteStatuses` (status.go lines
155-169): the `http.Get` network call, the `ioutil.ReadAll` body read, and
the `json.Unmarshal` decode. -/
inductive FetchError where
  | network (msg : String)
  | bodyRead (msg : String)
  | jsonDecode (msg : String)
deriving Repr, DecidableEq

/-- The `err.Error()` text posted to the channel on a fetch failure. -/
def FetchError.message : FetchError → String
  | .network m => m
  | .bodyRead m => m
  | .jsonDecode m => m

/-- `fetchRouteStatuses` (status.go lines 145-175): the upstream HTTP
round-trip is abstracted as the caller-supplied `fetch`; on failure the
error is returned and the cache is untouched; on success the routes are
stored under the version with duration `0` before being returned. -/
def fetchRouteStatuses (fetch : String → Except FetchError (List ESIStatus))
    (version : String) (c : Cache (List ESIStatus)) (now : Int) :
    Except FetchError (List ESIStatus) × Cache (List ESIStatus) :=
  match fetch version with
  | .error e => (.error e, c)
  | .ok routes => (.ok routes, Cache.set c version routes 0 now)

/-- The cache-miss refresh step of `makeESIStatusMessage` (status.go lines
187-195): call `fetchRouteStatuses`; on failure propagate the error; on
success flush the whole cache and store the fresh routes under the version. -/
def refresh (fetch : String → Except FetchError (List ESIStatus))
    (version : String) (c : Cache (List ESIStatus)) (now : Int) :
    Except FetchError (List ESIStatus) × Cache (List ESIStatus) :=
  match fetchRouteStatuses fetch version c now with
  | (.error e, c1) => (.error e, c1)
  | (.ok routes, c1) => (.ok routes, Cache.set (Cache.flush c1) version routes 0 now)

/-- `checkCache` (status.go lines 255-261): on a hit return the cached
routes with `true`; on a miss return `nil, false` (the nil slice is the
empty list). -/
def checkCache (version : String) (c : Cache (List ESIStatus)) (now : Int) :
    List ESIStatus × Bool :=
  match Cache.get c version now with
  | some routes => (routes, true)
  | none => ([], false)

/-- `percentage` (status.go lines 263-268). The Go function computes over
float64; every value a claim depends on is exact, so it is modelled over ℚ. -/
def percentage (top : Int) (bottom : Int) : ℚ :=
  if bottom = 0 then 0
  else 1 - (((top : ℚ) / (bottom : ℚ)) * 100)

/-- The per-category filter of the `makeESIStatusMessage` loop (status.go
lines 200-205): routes whose status exactly matches the category's. -/
def categoryRoutes (routes : List ESIStatus) (cat : StatusCategory) : List ESIStatus :=
  routes.filter (fun r => r.status == cat.status)

/-- `strings.Title` as applied to the single-word status names: uppercase
the first character. -/
def titleCase (s : String) : String :=
  match s.data with
  | [] => s
  | ch :: rest => String.mk (ch.toUpper :: rest)

/-- Two-digit zero padding, as produced by Go's `04`/`05`/`15` layout verbs. -/
def pad2 (n : Nat) : String :=
  if n < 10 then "0" ++ toString n else toString n

/-- Three-digit zero padding for the fractional part of a `%.3f` rendering. -/
def pad3 (n : Nat) : String :=
  if n < 10 then "00" ++ toString n
  else if n < 100 then "0" ++ toString n
  else toString n

/-- Model of Go's `%.3f` formatting over ℚ: round to three decimal places
and print sign, integer part and zero-padded fraction. -/
def fmt3 (q : ℚ) : String :=
  let n : Int := round (q * 1000)
  let sign := if n < 0 then "-" else ""
  let m := n.natAbs
  sign ++ toString (m / 1000) ++ "." ++ pad3 (m % 1000)

/-- One rendered route line of `generateRoutesString` (status.go lines
281-283): `strings.ToUpper(route.Method) + " " + route.Route`. -/
def lineOf (r : ESIStatus) : String :=
  r.method.toUpper ++ " " ++ r.route

/-- The accumulation loop of `generateRoutesString` (status.go lines
278-291) as a function of the remaining routes and the `processed` counter:
each iteration increments `processed` and renders the current route; once
`processed > 50` it appends `len(routes[i:])` — the count of routes from
the current (already rendered) one onward — and stops. -/
def routesLines : List ESIStatus → Nat → List String
  | [], _ => []
  | r :: rest, processed =>
      let processed1 := processed + 1
      if processed1 > 50 then
        [lineOf r, toString (rest.length + 1)]
      else
        lineOf r :: routesLines rest processed1

/-- `generateRoutesString` (status.go lines 270-294): empty input renders
the empty string, otherwise the lines are joined with newlines inside a
fenced code block. -/
def generateRoutesString (routes : List ESIStatus) : String :=
  if routes.length = 0 then ""
  else "\x60\x60\x60" ++ String.intercalate "\n" (routesLines routes 0) ++ "\x60\x60\x60"

/-- The fields of `nslack.Attachment` that `makeESIStatusMessage` sets
(absent fields keep Go's zero value, the empty string). -/
structure Attachment where
  color : String
  fallback : String
  text : String
deriving Repr, DecidableEq

/-- The all-clear attachment of status.go lines 237-239. -/
def okHandAttachment : Attachment :=
  { color := "", fallback := "", text := ":ok_hand:" }

/-- The attachment built for a non-empty category bucket (status.go lines
209-231). -/
def buildCategoryAttachment (cat : StatusCategory) (catRoutes routes : List ESIStatus) :
    Attachment :=
  { color := cat.color
  , fallback :=
      titleCase cat.status ++ ": " ++ toString catRoutes.length ++ " out of "
        ++ toString routes.length ++ ", "
        ++ fmt3 (percentage catRoutes.length routes.length) ++ "%"
  , text :=
      cat.emoji ++ " "
        ++ (toString catRoutes.length ++ " " ++ titleCase cat.status
              ++ " (out of " ++ toString routes.length ++ ",  "
              ++ fmt3 (percentage catRoutes.length routes.length) ++ "%)")
        ++ " " ++ cat.emoji ++ " " ++ generateRoutesString catRoutes }

/-- The attachment-building loop of `makeESIStatusMessage` (status.go lines
198-240): per category in order, skip empty buckets, and fall back to the
single `:ok_hand:` attachment when no bucket is non-empty. -/
def buildAttachments (routes : List ESIStatus) : List Attachment :=
  let atts := categories.filterMap (fun cat =>
    let catRoutes := categoryRoutes routes cat
    if catRoutes.length > 0 then some (buildCategoryAttachment cat catRoutes routes)
    else none)
  if atts.length = 0 then [okHandAttachment] else atts

/-- What `makeESIStatusMessage` posts to the channel: either the error text
of a failed fetch or the attachment list. -/
inductive PostedMessage where
  | errorText (msg : String)
  | attachments (atts : List Attachment)
deriving Repr, DecidableEq

/-- `makeESIStatusMessage` (status.go lines 177-253), from the resolved
version flag and the current cache. On a miss the Go code runs
`routes, err := fetchRouteStatuses(version)` inside the if-block: the `:=`
declares a NEW `routes` scoped to the block, so the categorisation loop
after the block still reads the OUTER `routes` — nil on a miss. The model
therefore discards the fetched list (`.ok _fetched`) for message building
and uses the outer `routes` from `checkCache`. -/
def makeESIStatusMessage (fetch : String → Except FetchError (List ESIStatus))
    (version : String) (c : Cache (List ESIStatus)) (now : Int) :
    PostedMessage × Cache (List ESIStatus) :=
  let rf := checkCache version c now
  let routes := rf.1
  let found := rf.2
  if found then
    (.attachments (buildAttachments routes), c)
  else
    match refresh fetch version c now with
    | (.error e, c1) => (.errorText e.message, c1)
    | (.ok _fetched, c2) => (.attachments (buildAttachments routes), c2)

/-- `determineServerRunTime` (status.go lines 138-143):
`time.Time{}.Add(n).Format("15h 04m 05s")` renders the clock time reached
by adding the elapsed duration (nanoseconds) to a midnight epoch — i.e. the
elapsed whole seconds reduced modulo 24 hours, split into zero-padded
hours, minutes and seconds. -/
def determineServerRunTime (elapsedNanos : Nat) : String :=
  pad2 (elapsedNanos / 1000000000 % 86400 / 3600) ++ "h "
    ++ pad2 (elapsedNanos / 1000000000 % 86400 % 3600 / 60) ++ "m "
    ++ pad2 (elapsedNanos / 1000000000 % 86400 % 60) ++ "s"

/-- The outcome of `handlePostSlackInvite` observable at the HTTP boundary. -/
inductive InviteOutcome where
  | badRequest (msg : String)
  | serverError (msg : String)
  | success (payload : String)
deriving Repr, DecidableEq

/-- `handlePostSlackInvite` (slack.go lines 117-171). The JSON decode of
the request body is modelled by an `Option SlackInvite` input (`none` for a
decode error); the outbound token exchange with the EVE SSO token endpoint
is the caller-supplied `exchange` collaborator. Lines 133-139 are exactly
`redeem`; the handler proceeds to the exchange only after a successful
redemption, which deletes the state before anything else runs. -/
def handlePostSlackInvite (decodedBody : Option SlackInvite) (m : Cache Bool)
    (now : Int) (exchange : String → Except String String) :
    InviteOutcome × Cache Bool :=
  match decodedBody with
  | none => (.badRequest "unable to decode request body", m)
  | some body =>
      if !body.IsValid then
        (.badRequest "invalid body received. Please provide both code and state", m)
      else
        match redeem body.state m now with
        | (false, m1) => (.badRequest "invalid state received", m1)
        | (true, m1) =>
            match exchange body.code with
            | .error e => (.serverError e, m1)
            | .ok data => (.success data, m1)

/-- An inbound HTTP request as `verifySlackReqeust` sees it: the header set
and the body stream's remaining bytes. -/
structure Request where
  headers : List (String × String)
  body : List Nat
deriving Repr, DecidableEq

/-- The external `nlopes/slack` secrets-verifier collaborator (spec 4.2's
out-of-scope SDK): possible failures of `NewSecretsVerifier` (missing or
stale timestamp/signature headers), of `verifier.Write`, and of
`verifier.Ensure` (signature mismatch), each as a function of what the
handler passes them. -/
structure SlackSDK where
  newVerifierErr : List (String × String) → String → Option String
  writeErr : List Nat → Option String
  ensureErr : List Nat → Option String

/-- `verifySlackReqeust` (slack.go lines 289-313; the misspelling is the
source's). `ioutil.ReadAll(req.Body)` drains the body stream, and
`req.Body = ioutil.NopCloser(bytes.NewBuffer(body))` re-attaches the same
bytes before the verifier is ever written to, so every completed
verification — success or mismatch — leaves the request with its original
body. Reading a pure byte list cannot fail, so the `ReadAll` error branch
has no model. -/
def verifySlackReqeust (sdk : SlackSDK) (req : Request) (secret : String) :
    Except String Unit × Request :=
  match sdk.newVerifierErr req.headers secret with
  | some e => (.error ("failed to create secrets verifier: " ++ e), req)
  | none =>
      let body := req.body
      let drained : Request := { req with body := [] }
      let req1 : Request := { drained with body := body }
      match sdk.writeErr body with
      | some e => (.error ("failed to write body to the verifier: " ++ e), req1)
      | none =>
          match sdk.ensureErr body with
          | some e => (.error ("failed to ensure the verifier: " ++ e), req1)
          | none => (.ok (), req1)

/-- The decoded body of the invite-send request (slack.go `SlackInviteSend`). -/
structure SlackInviteSend where
  email : String
deriving Repr, DecidableEq

/-- The observable effects of `handlePostSlackInviteSend`: the
`WriteHeader` status codes in call order, the JSON bodies encoded to the
response in call order, and the `(channel, text)` messages successfully
posted via the chat collaborator. -/
structure SendEffects where
  statusWrites : List Nat
  bodyWrites : List String
  postedMessages : List (String × String)
deriving Repr, DecidableEq

/-- Sequential composition of observable effects. -/
def SendEffects.append (a b : SendEffects) : SendEffects :=
  { statusWrites := a.statusWrites ++ b.statusWrites
  , bodyWrites := a.bodyWrites ++ b.bodyWrites
  , postedMessages := a.postedMessages ++ b.postedMessages }

/-- `handlePostSlackInviteSend` (slack.go lines 188-242). Inputs: the
decoded body (`none` for a JSON decode error), the authenticated identity
from the context (`none` = no token, `some none` = token whose name claim
is not a string, `some (some name)` = display name), the chat
collaborator's posting outcome, and the configured moderation channel.
The empty-email branch (lines 199-205) writes a 400 status and an error
body but has no `return`, so execution falls through into the token check
and, when that succeeds, still posts the notification and encodes the
confirmation message. -/
def handlePostSlackInviteSend (decodedBody : Option SlackInviteSend)
    (ctxToken : Option (Option String)) (postErr : Option String)
    (modChannel : String) : SendEffects :=
  match decodedBody with
  | none =>
      { statusWrites := [400]
      , bodyWrites := ["unable to decode request body"]
      , postedMessages := [] }
  | some body =>
      let emailEff : SendEffects :=
        if body.email == "" then
          { statusWrites := [400]
          , bodyWrites := ["email_invalid: please supply a valid, non-empty email address"]
          , postedMessages := [] }
        else { statusWrites := [], bodyWrites := [], postedMessages := [] }
      match ctxToken with
      | none =>
          SendEffects.append emailEff
            { statusWrites := [500], bodyWrites := ["token not found"], postedMessages := [] }
      | some none =>
          SendEffects.append emailEff
            { statusWrites := [500], bodyWrites := [], postedMessages := [] }
      | some (some realName) =>
          let msg := realName ++ " (" ++ body.email
            ++ ") has requested an invitation to Tweetfleet."
          match postErr with
          | some _ =>
              SendEffects.append emailEff
                { statusWrites := [500], bodyWrites := [], postedMessages := [] }
          | none =>
              SendEffects.append emailEff
                { statusWrites := [200]
                , bodyWrites := ["Your request has been submitted successfully. Please monitor your inbox for an invitation for the Tweetfleet Staff. Thank You"]
                , postedMessages := [(modChannel, msg)] }

theorem find?_filter_ne {α : Type} (l : List (String × CacheItem α)) (k : String) :
    (l.filter (fun p => p.1 != k)).find? (fun p => p.1 == k) = none := by
  rw [List.find?_eq_none]
  intro x hx
  have hne := List.of_mem_filter hx
  simp only [bne_iff_ne, ne_eq] at hne
  simp [hne]

theorem get_delete {α : Type} (c : Cache α) (k : String) (now : Int) :
    Cache.get (Cache.delete c k) k now = none := by
  simp only [Cache.get, Cache.delete]
  rw [find?_filter_ne]

theorem redeem_miss (token : String) (m : Cache Bool) (now : Int)
    (h : Cache.get m token now = none) : redeem token m now = (false, m) := by
  simp [redeem, h]

theorem redeemRun_absent (token : String) (m : Cache Bool) (ts : List Int)
    (h : ∀ t, Cache.get m token t = none) : redeemRun token m ts = (0, m) := by
  induction ts with
  | nil => rfl
  | cons now rest ih => simp [redeemRun, redeem_miss token m now (h now), ih]

theorem redeemRun_le_one (token : String) (m : Cache Bool) (ts : List Int) :
    (redeemRun token m ts).1 ≤ 1 := by
  induction ts generalizing m with
  | nil => simp [redeemRun]
  | cons now rest ih =>
      cases hget : Cache.get m token now with
      | none => simpa [redeemRun, redeem, hget] using ih m
      | some v =>
          have habs : ∀ t, Cache.get (Cache.delete m token) token t = none :=
            fun t => get_delete m token t
          simp [redeemRun, redeem, hget,
            redeemRun_absent token (Cache.delete m token) rest habs]

/-- C1: for every CSRF state token, at most one `redeem` call succeeds: a
successful redemption deletes the token from the state map before the
handler returns, every later `redeem` of the same token fails, and any
sequence of redemptions contains at most one success. -/
theorem state_token_at_most_once_redeemed (token : String) (m m' : Cache Bool)
    (now : Int) (h : redeem token m now = (true, m')) :
    (∀ t, Cache.get m' token t = none) ∧
    (∀ ts, (redeemRun token m' ts).1 = 0) ∧
    (∀ ts, (redeemRun token m ts).1 ≤ 1) := by
  have hm' : m' = Cache.delete m token := by
    cases hget : Cache.get m token now with
    | none => simp [redeem, hget] at h
    | some v =>
        have := h
        simp [redeem, hget] at this
        exact this.symm
  subst hm'
  refine ⟨fun t => get_delete m token t, fun ts => ?_, fun ts => redeemRun_le_one token m ts⟩
  have habs := redeemRun_absent token (Cache.delete m token) ts
    (fun t => get_delete m token t)
  simp [habs]

/-- C1 witness: a concrete issued token is redeemed once, after which a run
of three further redemptions produces zero successes. -/
theorem state_token_at_most_once_redeemed_witness :
    (redeemRun "a1b2c3d4e5f6a7b8"
        (Cache.delete (issueState "a1b2c3d4e5f6a7b8" stateMapInit 0) "a1b2c3d4e5f6a7b8")
        [7, 9, 11]).1 = 0 :=
  (state_token_at_most_once_redeemed "a1b2c3d4e5f6a7b8"
      (issueState "a1b2c3d4e5f6a7b8" stateMapInit 0)
      (Cache.delete (issueState "a1b2c3d4e5f6a7b8" stateMapInit 0) "a1b2c3d4e5f6a7b8")
      5 (by decide)).2.1 [7, 9, 11]

/-- C2: a successful `refresh` for one variant flushes the whole status
cache and stores only the fresh snapshot under that variant, so a
subsequent lookup of any other variant misses. -/
theorem refresh_flushes_whole_cache
    (fetch : String → Except FetchError (List ESIStatus)) (v1 v2 : String)
    (c : Cache (List ESIStatus)) (now now' : Int) (routes : List ESIStatus)
    (hfetch : fetch v1 = Except.ok routes) (hne : v2 ≠ v1) :
    ((refresh fetch v1 c now).2.items.map Prod.fst = [v1]) ∧
    ((refresh fetch v1 c now).2.items.map (fun p => p.2.object) = [routes]) ∧
    Cache.get (refresh fetch v1 c now).2 v2 now' = none ∧
    checkCache v2 (refresh fetch v1 c now).2 now' = ([], false) := by
  have hne' : v1 ≠ v2 := Ne.symm hne
  have hr : refresh fetch v1 c now
      = (.ok routes,
         Cache.set (Cache.flush (Cache.set c v1 routes 0 now)) v1 routes 0 now) := by
    simp [refresh, fetchRouteStatuses, hfetch]
  have hb : (v1 == v2) = false := by simp [hne']
  have hget : Cache.get
      (Cache.set (Cache.flush (Cache.set c v1 routes 0 now)) v1 routes 0 now) v2 now'
      = none := by
    simp [Cache.get, Cache.set, Cache.flush, List.find?, hb]
  refine ⟨?_, ?_, ?_, ?_⟩
  · rw [hr]; simp [Cache.set, Cache.flush]
  · rw [hr]; simp [Cache.set, Cache.flush]
  · rw [hr]; exact hget
  · rw [hr]; simp [checkCache, hget]

def c2Routes : List ESIStatus :=
  [{ method := "get", route := "/v1/status/", status := "red" }]

def c2Prior : Cache (List ESIStatus) :=
  Cache.set statusCacheInit "dev"
    [{ method := "get", route := "/v2/alliances/", status := "green" }] 0 0

/-- C2 witness: refreshing "latest" evicts the previously cached, unexpired
"dev" snapshot. -/
theorem refresh_flushes_whole_cache_witness :
    Cache.get (refresh (fun _ => Except.ok c2Routes) "latest" c2Prior 10).2 "dev" 20
      = none :=
  (refresh_flushes_whole_cache (fun _ => Except.ok c2Routes) "latest" "dev" c2Prior
      10 20 c2Routes rfl (by decide)).2.2.1

/-- C3: on a cache miss with a successful fetch, the fetched routes are
written to the cache, but the `:=` inside the if-block shadows the outer
`routes`, so the reply is built from the empty list and is always the
single `:ok_hand:` all-clear attachment. -/
theorem esi_status_miss_posts_ok_hand
    (fetch : String → Except FetchError (List ESIStatus)) (version : String)
    (c : Cache (List ESIStatus)) (now : Int) (fetched : List ESIStatus)
    (hmiss : checkCache version c now = ([], false))
    (hfetch : fetch version = Except.ok fetched) :
    (makeESIStatusMessage fetch version c now).1
        = PostedMessage.attachments [okHandAttachment] ∧
    Cache.get (makeESIStatusMessage fetch version c now).2 version now = some fetched := by
  have hmk : makeESIStatusMessage fetch version c now
      = (PostedMessage.attachments (buildAttachments []),
         Cache.set (Cache.flush (Cache.set c version fetched 0 now)) version fetched 0
           now) := by
    simp [makeESIStatusMessage, hmiss, refresh, fetchRouteStatuses, hfetch]
  rw [hmk]
  refine ⟨rfl, ?_⟩
  have hbv : (version == version) = true := by simp
  by_cases hd : (0 : Int) < c.defaultExpiration
  · have hcond : ¬ (0 < now + c.defaultExpiration ∧ now + c.defaultExpiration < now) := by
      omega
    simp [Cache.get, Cache.set, Cache.flush, List.find?, hbv, hd, hcond]
    omega
  · simp [Cache.get, Cache.set, Cache.flush, List.find?, hbv, hd]

def c3Routes : List ESIStatus :=
  [ { method := "get", route := "/v1/alliances/", status := "red" },
    { method := "post", route := "/v2/characters/", status := "red" },
    { method := "get", route := "/v1/markets/", status := "yellow" } ]

/-- C3 witness: a miss on an empty cache with three freshly fetched
red/yellow routes still posts the single all-clear attachment. -/
theorem esi_status_miss_posts_ok_hand_witness :
    (makeESIStatusMessage (fun _ => Except.ok c3Routes) "latest" statusCacheInit 0).1
      = PostedMessage.attachments [okHandAttachment] :=
  (esi_status_miss_posts_ok_hand (fun _ => Except.ok c3Routes) "latest" statusCacheInit 0
      c3Routes rfl rfl).1

def redCategory : StatusCategory :=
  { status := "red", emoji := ":fire:", color := "danger" }

def c4SevenRoutes : List ESIStatus :=
  [ { method := "get", route := "/v1/a/", status := "red" },
    { method := "get", route := "/v1/b/", status := "red" },
    { method := "get", route := "/v1/c/", status := "red" },
    { method := "get", route := "/v1/d/", status := "green" },
    { method := "get", route := "/v1/e/", status := "green" },
    { method := "get", route := "/v1/f/", status := "green" },
    { method := "get", route := "/v1/g/", status := "green" } ]

def c4TenRoutes : List ESIStatus :=
  c4SevenRoutes ++
    [ { method := "get", route := "/v1/h/", status := "green" },
      { method := "get", route := "/v1/i/", status := "green" },
      { method := "get", route := "/v1/j/", status := "green" } ]

/-- C4 counterexample: with 3 red routes among 7 total routes the red
bucket's health percentage is 1 - (3/7)*100 = -293/7, not -29. -/
theorem percentage_three_of_seven_not_neg29 :
    (categoryRoutes c4SevenRoutes redCategory).length = 3 ∧
    c4SevenRoutes.length = 7 ∧
    percentage (categoryRoutes c4SevenRoutes redCategory).length c4SevenRoutes.length
      = -293 / 7 ∧
    percentage (categoryRoutes c4SevenRoutes redCategory).length c4SevenRoutes.length
      ≠ -29 := by
  have hlen3 : (categoryRoutes c4SevenRoutes redCategory).length = 3 := by decide
  have hlen7 : c4SevenRoutes.length = 7 := by decide
  refine ⟨hlen3, hlen7, ?_, ?_⟩
  · rw [hlen3, hlen7]
    unfold percentage
    norm_num
  · rw [hlen3, hlen7]
    unfold percentage
    norm_num

/-- C4 amended: the route categorizer's health percentage equals
1 - (matchCount/totalCount)*100 when the total is positive and 0 when it
is 0; with 3 red routes and 10 total routes the red bucket's health
percentage equals 1 - (3/10)*100 = -29. -/
theorem percentage_formula_amended :
    (∀ (routes : List ESIStatus) (cat : StatusCategory),
        percentage (categoryRoutes routes cat).length routes.length
          = if routes.length = 0 then 0
            else 1 - ((((categoryRoutes routes cat).length : ℚ) / (routes.length : ℚ))
                * 100)) ∧
    percentage (categoryRoutes c4TenRoutes redCategory).length c4TenRoutes.length
      = -29 := by
  constructor
  · intro routes cat
    by_cases h : routes.length = 0
    · simp [percentage, h]
    · have h1 : ((routes.length : Int)) ≠ 0 := by exact_mod_cast h
      unfold percentage
      rw [if_neg h1, if_neg h]
      push_cast
      ring
  · have hlen3 : (categoryRoutes c4TenRoutes redCategory).length = 3 := by decide
    have hlen10 : c4TenRoutes.length = 10 := by decide
    rw [hlen3, hlen10]
    unfold percentage
    norm_num

theorem routesLines_spec (l : List ESIStatus) (p : Nat) (hp : p ≤ 50) :
    routesLines l p =
      if l.length + p ≤ 50 then l.map lineOf
      else (l.take (51 - p)).map lineOf ++ [toString (l.length - (50 - p))] := by
  induction l generalizing p with
  | nil =>
      simp [routesLines, hp]
  | cons r rest ih =>
      rcases Nat.lt_or_ge p 50 with hlt | hge
      · have hcond : ¬ (p + 1 > 50) := by omega
        simp only [routesLines]
        rw [if_neg hcond, ih (p + 1) (by omega)]
        by_cases hc : rest.length + (p + 1) ≤ 50
        · rw [if_pos hc, if_pos (show (r :: rest).length + p ≤ 50 by
            simp only [List.length_cons]; omega)]
          simp
        · rw [if_neg hc, if_neg (show ¬ ((r :: rest).length + p ≤ 50) by
            simp only [List.length_cons]; omega)]
          have ht : 51 - p = (51 - (p + 1)) + 1 := by omega
          have hm : rest.length - (50 - (p + 1)) = (r :: rest).length - (50 - p) := by
            simp only [List.length_cons]; omega
          rw [ht]
          simp only [List.take_succ_cons, List.map_cons, List.cons_append, hm]
      · have hp50 : p = 50 := le_antisymm hp hge
        subst hp50
        simp only [routesLines]
        rw [if_pos (by omega : 50 + 1 > 50),
          if_neg (show ¬ ((r :: rest).length + 50 ≤ 50) by
            simp only [List.length_cons]; omega)]
        have ht : 51 - 50 = 0 + 1 := by omega
        rw [ht]
        simp

def c5Sixty : List ESIStatus :=
  List.replicate 60 { method := "get", route := "/v1/universe/", status := "red" }

/-- C5 counterexample: with 60 routes the rendering loop emits 52 lines,
the last one the marker "10" (the count of `routes[50:]`, which includes
the already-rendered 51st route), refuting "51 lines, the 51st a 9-more
marker". -/
theorem routes_string_sixty_not_51_lines :
    (routesLines c5Sixty 0).length = 52 ∧
    (routesLines c5Sixty 0).getLast? = some "10" ∧
    ¬ ((routesLines c5Sixty 0).length = 51 ∧
        (routesLines c5Sixty 0).getLast? = some "9") := by
  decide

/-- C5 amended: at most 51 routes are rendered as literal text lines; for a
list of at least 51 routes the output is the first 51 route lines followed
by one marker line holding `length - 50` — the count of `routes[50:]`,
which also counts the already-rendered 51st route — so 60 entries give 52
lines whose last is "10". -/
theorem routes_truncation_amended (routes : List ESIStatus) (h : 51 ≤ routes.length) :
    routesLines routes 0
      = (routes.take 51).map lineOf ++ [toString (routes.length - 50)] := by
  rw [routesLines_spec routes 0 (by omega), if_neg (by omega)]

/-- C5 witness: the amended truncation shape evaluated on the concrete
60-entry list. -/
theorem routes_truncation_amended_witness :
    routesLines c5Sixty 0
      = (c5Sixty.take 51).map lineOf ++ [toString (c5Sixty.length - 50)] :=
  routes_truncation_amended c5Sixty (by decide)

/-- C8: the invite-callback handler answers 400 when the state is empty,
the code is empty, or the state cannot be redeemed, leaving the state map
unchanged; only when all three checks pass does it proceed to the
authorization-code exchange (with the state already deleted). -/
theorem invite_callback_checks (b : SlackInvite) (m : Cache Bool) (now : Int)
    (exch : String → Except String String) :
    ((b.state = "" ∨ b.code = "" ∨ Cache.get m b.state now = none) →
        ∃ msg, handlePostSlackInvite (some b) m now exch
          = (InviteOutcome.badRequest msg, m)) ∧
    ((b.state ≠ "" ∧ b.code ≠ "" ∧ Cache.get m b.state now ≠ none) →
        handlePostSlackInvite (some b) m now exch
          = (match exch b.code with
             | .error e => (InviteOutcome.serverError e, Cache.delete m b.state)
             | .ok data => (InviteOutcome.success data, Cache.delete m b.state))) := by
  constructor
  · intro h
    by_cases hv : b.IsValid
    · have hget : Cache.get m b.state now = none := by
        rcases h with h | h | h
        · exfalso; simp [SlackInvite.IsValid, h] at hv
        · exfalso; simp [SlackInvite.IsValid, h] at hv
        · exact h
      exact ⟨"invalid state received",
        by simp [handlePostSlackInvite, hv, redeem, hget]⟩
    · have hv' : b.IsValid = false := by simpa using hv
      exact ⟨"invalid body received. Please provide both code and state",
        by simp [handlePostSlackInvite, hv']⟩
  · rintro ⟨h1, h2, h3⟩
    have hv : b.IsValid = true := by simp [SlackInvite.IsValid, h1, h2]
    rcases hget : Cache.get m b.state now with _ | v
    · exact absurd hget h3
    · cases hex : exch b.code with
      | error e => simp [handlePostSlackInvite, hv, redeem, hget, hex]
      | ok d => simp [handlePostSlackInvite, hv, redeem, hget, hex]

/-- C8 witness: an empty state field is refused with a 400 and the state
map is left unchanged. -/
theorem invite_callback_checks_witness :
    ∃ msg, handlePostSlackInvite (some { state := "", code := "abc123" }) stateMapInit 0
        (fun _ => Except.ok "token-payload")
      = (InviteOutcome.badRequest msg, stateMapInit) :=
  (invite_callback_checks { state := "", code := "abc123" } stateMapInit 0
      (fun _ => Except.ok "token-payload")).1 (Or.inl rfl)

/-- C6: when the upstream fetch of a refresh fails — network, body-read or
JSON-decode error — the error is propagated and the status cache is
returned exactly as it was. -/
theorem refresh_failure_leaves_cache
    (fetch : String → Except FetchError (List ESIStatus)) (version : String)
    (c : Cache (List ESIStatus)) (now : Int) (e : FetchError)
    (hfetch : fetch version = Except.error e) :
    refresh fetch version c now = (.error e, c) := by
  simp [refresh, fetchRouteStatuses, hfetch]

def c6Prior : Cache (List ESIStatus) :=
  Cache.set statusCacheInit "latest"
    [{ method := "get", route := "/v1/status/", status := "yellow" }] 0 0

/-- C6 witness: a concrete network failure leaves a concrete prior cache
untouched. -/
theorem refresh_failure_leaves_cache_witness :
    refresh (fun _ => Except.error (FetchError.network "dial tcp: connection timed out"))
        "latest" c6Prior 10
      = (Except.error (FetchError.network "dial tcp: connection timed out"), c6Prior) :=
  refresh_failure_leaves_cache _ "latest" c6Prior 10 _ rfl

/-- C7: whatever the SDK verifier reports, the request the signature
verifier hands back carries exactly the body bytes it received — the body
is read and re-attached unchanged. -/
theorem verify_preserves_body (sdk : SlackSDK) (req : Request) (secret : String) :
    (verifySlackReqeust sdk req secret).2.body = req.body := by
  rcases h1 : sdk.newVerifierErr req.headers secret with _ | e1
  · rcases h2 : sdk.writeErr req.body with _ | e2
    · rcases h3 : sdk.ensureErr req.body with _ | e3
      · simp [verifySlackReqeust, h1, h2, h3]
      · simp [verifySlackReqeust, h1, h2, h3]
    · simp [verifySlackReqeust, h1, h2]
  · simp [verifySlackReqeust, h1]

/-- C9: at the failing input — empty email, authenticated identity
"Jane Doe", chat post succeeding — the handler writes the 400 error but,
lacking a `return`, still posts the moderation-channel notification and
encodes the fixed confirmation message. -/
theorem invite_send_empty_email_still_posts :
    handlePostSlackInviteSend (some { email := "" }) (some (some "Jane Doe")) none
        "mod-channel"
      = { statusWrites := [400, 200]
        , bodyWrites :=
            [ "email_invalid: please supply a valid, non-empty email address"
            , "Your request has been submitted successfully. Please monitor your inbox for an invitation for the Tweetfleet Staff. Thank You" ]
        , postedMessages :=
            [("mod-channel", "Jane Doe () has requested an invitation to Tweetfleet.")] } :=
  rfl

/-- C10: the "running for" rendering depends only on the elapsed duration
reduced modulo 24 hours, so uptimes of 24 hours or more wrap instead of
accumulating days. -/
theorem server_runtime_wraps_mod_24h (n : Nat) :
    determineServerRunTime n = determineServerRunTime (n % (86400 * 1000000000)) ∧
    determineServerRunTime (n + 86400 * 1000000000) = determineServerRunTime n := by
  have h1 : n % (86400 * 1000000000) / 1000000000 % 86400
      = n / 1000000000 % 86400 := by omega
  have h2 : (n + 86400 * 1000000000) / 1000000000 % 86400
      = n / 1000000000 % 86400 := by omega
  constructor
  · unfold determineServerRunTime
    rw [h1]
  · unfold determineServerRunTime
    rw [h2]

end EsiBot
